import Mathlib

/-!
Shallow embedding of the wizflow code generator (src/wizflow), covering:
  * the JSON-like runtime values handled by the generator,
  * the template resolver `ActionPlugin._resolve_template` (plugins/base.py),
  * the loaded action plugins and their `get_function_call` methods,
  * the plugin registry construction (core/plugin_manager.py),
  * the code generator (core/code_generator.py): required plugins,
    allowed modules, and all text-emission sections,
  * operational readings of the emitted retry block and webhook harness.

Python `str` values are modelled as Lean `String`, Python dicts as
association lists (first match wins on lookup; keys in the documents of
interest are unique), machine integers as `Int` (Python ints are unbounded).
-/

namespace Wizflow

/-- JSON-like values: the Python values a workflow document or a config entry
can hold after `json.loads` (dicts are string-keyed). -/
inductive Json where
  | null
  | bool (b : Bool)
  | num (n : Int)
  | str (s : String)
  | arr (xs : List Json)
  | obj (kvs : List (String × Json))

/-- First-match association-list lookup, the model of Python `dict.get`. -/
def lookupStr (kvs : List (String × Json)) (k : String) : Option Json :=
  match kvs with
  | [] => none
  | (k', v) :: rest => if k' = k then some v else lookupStr rest k

/-- `d.get(k)` on a dict; `None` (here `none`) on a non-dict or a missing key.
(Python raises `AttributeError` when `.get` is called on a non-dict; claims
only concern well-formed documents, where the receiver is a dict.) -/
def jget (j : Json) (k : String) : Option Json :=
  match j with
  | .obj kvs => lookupStr kvs k
  | _ => none

/-- `d.get(k, default)`. -/
def jgetD (j : Json) (k : String) (d : Json) : Json :=
  (jget j k).getD d

/-- The elements of a JSON array (claims only concern documents whose
`actions` field is an array, matching Python iteration over a list). -/
def jarr (j : Json) : List Json :=
  match j with
  | .arr xs => xs
  | _ => []

/-- Python truthiness of the modelled values. -/
def truthy (j : Json) : Bool :=
  match j with
  | .null => false
  | .bool b => b
  | .num n => n != 0
  | .str s => s ≠ ""
  | .arr xs => !xs.isEmpty
  | .obj kvs => !kvs.isEmpty

/-- Characters stripped by Python `str.strip()` (ASCII whitespace). -/
def isPySpace (c : Char) : Bool :=
  c = (' ') || c = ('\t') || c = ('\n') || c = ('\r') || c = ('\x0b') || c = ('\x0c')

/-- Python `str.strip()`. -/
def pyStrip (s : String) : String :=
  String.mk (((s.data.dropWhile isPySpace).reverse.dropWhile isPySpace).reverse)

/-- Python `str.split()` with no argument: split on whitespace runs. -/
def pySplit (s : String) : List String :=
  (s.split isPySpace).filter (fun t => t ≠ "")

/-- One character of a Python `repr` of a string, for the given quote
character: escape the backslash, the quote, and common control characters. -/
def pyEscapeChar (q : Char) (c : Char) : String :=
  if c = ('\\') then "\\\\"
  else if c = q then String.mk [('\\'), q]
  else if c = ('\n') then "\\n"
  else if c = ('\r') then "\\r"
  else if c = ('\t') then "\\t"
  else String.mk [c]

/-- Python `repr` of a string: single quotes, switching to double quotes when
the string contains a single quote but no double quote. -/
def pyReprStr (s : String) : String :=
  let q : Char := if s.data.contains ('\'') && !(s.data.contains ('"')) then '"' else '\''
  String.mk [q] ++ String.join (s.data.map (pyEscapeChar q)) ++ String.mk [q]

mutual

/-- Python `repr` of a modelled value (`repr` and `str` agree on containers). -/
def pyRepr (j : Json) : String :=
  match j with
  | .null => "None"
  | .bool true => "True"
  | .bool false => "False"
  | .num n => toString n
  | .str s => pyReprStr s
  | .arr xs => "[" ++ String.intercalate (", ") (pyReprList xs) ++ "]"
  | .obj kvs => "\x7b" ++ String.intercalate (", ") (pyReprKVs kvs) ++ "\x7d"

/-- `repr` of each array element. -/
def pyReprList (xs : List Json) : List String :=
  match xs with
  | [] => []
  | x :: rest => pyRepr x :: pyReprList rest

/-- `repr` of each `key: value` entry of a dict. -/
def pyReprKVs (kvs : List (String × Json)) : List String :=
  match kvs with
  | [] => []
  | (k, v) :: rest => (pyReprStr k ++ ": " ++ pyRepr v) :: pyReprKVs rest

end

/-- Python `str()` of a modelled value (as used by f-string interpolation). -/
def pyStr (j : Json) : String :=
  match j with
  | .str s => s
  | v => pyRepr v

/-- Python `int()` of a modelled value, total stand-in: Python raises on a
non-numeric argument; claims only use numeric ports/counts. -/
def pyInt (j : Json) : Int :=
  match j with
  | .num n => n
  | .str s => (s.toInt?).getD 0
  | .bool true => 1
  | .bool false => 0
  | _ => 0

/-- `dict.update` for one key: overwrite the first binding in place, else
append (Python preserves the position of existing keys). -/
def dictSet (kvs : List (String × Json)) (k : String) (v : Json) : List (String × Json) :=
  match kvs with
  | [] => [(k, v)]
  | (k', v') :: rest => if k' = k then (k', v) :: rest else (k', v') :: dictSet rest k v

/-- `variables.update(new)`: apply every binding of `new` in order. -/
def dictUpdate (kvs new : List (String × Json)) : List (String × Json) :=
  new.foldl (fun acc kv => dictSet acc kv.1 kv.2) kvs

/-- Python `set.add` on a set of strings, modelled as a duplicate-free list in
first-insertion order (a process-fixed stand-in for the hash order; claims
depend only on membership or on the order being a fixed function of the
insertion sequence). -/
def pysetInsert (s : List String) (x : String) : List String :=
  if x ∈ s then s else s ++ [x]

/-- Insert a stable-sorted element (strings compare by code point, the same
total order Python `sorted` uses). -/
def insertSorted (x : String) (l : List String) : List String :=
  match l with
  | [] => [x]
  | y :: ys => if x ≤ y then x :: y :: ys else y :: insertSorted x ys

/-- Python `sorted` on a list of strings. -/
def sortStrings (l : List String) : List String :=
  match l with
  | [] => []
  | x :: xs => insertSorted x (sortStrings xs)

/-- JSON string escaping as `json.dumps` performs it (ASCII arguments). -/
def jsonEscapeChar (c : Char) : String :=
  if c = ('\\') then "\\\\"
  else if c = ('"') then "\\\""
  else if c = ('\n') then "\\n"
  else if c = ('\r') then "\\r"
  else if c = ('\t') then "\\t"
  else String.mk [c]

/-- `json.dumps` of a string. -/
def jsonDumpsStr (s : String) : String :=
  "\"" ++ String.join (s.data.map jsonEscapeChar) ++ "\""

mutual

/-- `json.dumps` with default separators (no indent). -/
def jsonDumps (j : Json) : String :=
  match j with
  | .null => "null"
  | .bool true => "true"
  | .bool false => "false"
  | .num n => toString n
  | .str s => jsonDumpsStr s
  | .arr xs => "[" ++ String.intercalate (", ") (jsonDumpsList xs) ++ "]"
  | .obj kvs => "\x7b" ++ String.intercalate (", ") (jsonDumpsKVs kvs) ++ "\x7d"

/-- `json.dumps` of each array element. -/
def jsonDumpsList (xs : List Json) : List String :=
  match xs with
  | [] => []
  | x :: rest => jsonDumps x :: jsonDumpsList rest

/-- `json.dumps` of each `"key": value` entry of a dict. -/
def jsonDumpsKVs (kvs : List (String × Json)) : List String :=
  match kvs with
  | [] => []
  | (k, v) :: rest => (jsonDumpsStr k ++ ": " ++ jsonDumps v) :: jsonDumpsKVs rest

end

mutual

/-- `json.dumps(·, indent=4)` at nesting depth `lvl` (empty containers render
inline, as in Python). -/
def jsonDumpsIndent (lvl : Nat) (j : Json) : String :=
  match j with
  | .null => "null"
  | .bool true => "true"
  | .bool false => "false"
  | .num n => toString n
  | .str s => jsonDumpsStr s
  | .arr [] => "[]"
  | .arr xs =>
      "[\n" ++ String.intercalate (",\n") (jsonDumpsIndentList lvl xs) ++
        "\n" ++ String.join (List.replicate (4 * lvl) (" ")) ++ "]"
  | .obj [] => "\x7b\x7d"
  | .obj kvs =>
      "\x7b\n" ++ String.intercalate (",\n") (jsonDumpsIndentKVs lvl kvs) ++
        "\n" ++ String.join (List.replicate (4 * lvl) (" ")) ++ "\x7d"

/-- Indented rendering of each array element (at the parent depth `lvl`). -/
def jsonDumpsIndentList (lvl : Nat) (xs : List Json) : List String :=
  match xs with
  | [] => []
  | x :: rest =>
      (String.join (List.replicate (4 * (lvl + 1)) (" ")) ++ jsonDumpsIndent (lvl + 1) x) ::
        jsonDumpsIndentList lvl rest

/-- Indented rendering of each dict entry (at the parent depth `lvl`). -/
def jsonDumpsIndentKVs (lvl : Nat) (kvs : List (String × Json)) : List String :=
  match kvs with
  | [] => []
  | (k, v) :: rest =>
      (String.join (List.replicate (4 * (lvl + 1)) (" ")) ++ jsonDumpsStr k ++ ": " ++
        jsonDumpsIndent (lvl + 1) v) :: jsonDumpsIndentKVs lvl rest

end

/-- `needle` occurs as a contiguous substring of `hay`. -/
def strContainsSub (hay needle : String) : Bool :=
  go hay.data
where
  go : List Char → Bool
  | [] => needle.data.isPrefixOf []
  | c :: rest => needle.data.isPrefixOf (c :: rest) || go rest

/-! ### Template resolver (plugins/base.py, `ActionPlugin._resolve_template`)

The Python implementation compiles the regular expression
`\x7b\x7b(.*?)\x7d\x7d`: two literal opening braces, a lazy group whose `.`
cannot match a newline, two literal closing braces.  The scanners below
implement the leftmost-shortest match discipline of `re.fullmatch`,
`re.search` and `re.sub` for this single fixed pattern. -/

/-- After an opening `\x7b\x7b`: the lazy group, i.e. the characters up to the
first `\x7d\x7d`, failing on a newline (`.` does not match `\n`) or at the end
of input.  Returns the group together with the input remaining after the
closing braces. -/
def findClose (l : List Char) : Option (List Char × List Char) :=
  match l with
  | [] => none
  | c :: rest =>
      if c = ('\n') then none
      else if c = ('\x7d') ∧ rest.head? = some ('\x7d') then some ([], rest.tail)
      else (findClose rest).map (fun p => (c :: p.1, p.2))

theorem findClose_length (l : List Char) (g suf : List Char)
    (h : findClose l = some (g, suf)) : suf.length < l.length := by
  induction l generalizing g with
  | nil => simp [findClose] at h
  | cons c rest ih =>
      rw [findClose] at h
      by_cases h1 : c = ('\n')
      · simp [h1] at h
      · by_cases h2 : c = ('\x7d') ∧ rest.head? = some ('\x7d')
        · rw [if_neg h1, if_pos h2] at h
          obtain ⟨-, rfl⟩ : g = [] ∧ suf = rest.tail := by
            have h3 := Option.some.inj h
            exact ⟨(Prod.mk.injEq .. ▸ h3).1.symm, (Prod.mk.injEq .. ▸ h3).2.symm⟩
          cases rest with
          | nil => simp at h2
          | cons d ds => simp only [List.tail_cons, List.length_cons]; omega
        · rw [if_neg h1, if_neg h2] at h
          rcases hfc : findClose rest with _ | ⟨g', suf'⟩ <;> rw [hfc] at h
          · simp at h
          · simp only [Option.map, Option.some.injEq, Prod.mk.injEq] at h
            obtain ⟨-, rfl⟩ := h
            exact Nat.lt_trans (ih g' hfc) (Nat.lt_succ_self _)

/-- `re.search` for the pattern: is there a match anywhere (leftmost start,
shortest group)? -/
def hasMatch (l : List Char) : Bool :=
  match l with
  | [] => false
  | c :: rest =>
      (decide (c = ('\x7b')) && decide (rest.head? = some ('\x7b')) && (findClose rest.tail).isSome)
      || hasMatch rest

/-- `re.sub` for the pattern: replace every non-overlapping match scanning
left to right, applying `repl` to each group; on a failed start the scan
advances one character, as the regex engine does. -/
def subAll (repl : String → String) (l : List Char) : List Char :=
  match l with
  | [] => []
  | c :: rest =>
      if c = ('\x7b') ∧ rest.head? = some ('\x7b') then
        match h : findClose rest.tail with
        | some (g, suf) => (repl (String.mk g)).data ++ subAll repl suf
        | none => c :: subAll repl rest
      else c :: subAll repl rest
termination_by l.length
decreasing_by
  all_goals simp_wf
  all_goals try (have hlt := findClose_length _ _ _ h)
  all_goals try (have hle : rest.tail.length ≤ rest.length := by cases rest <;> simp [List.tail])
  all_goals try simp only [List.length_cons]
  all_goals omega

/-- `re.fullmatch` for the pattern against `s`: succeeds exactly when `s` is
`\x7b\x7b g \x7d\x7d` for the (newline-free) group `g` between the outer brace
pairs; backtracking of the lazy group forces full consumption. -/
def fullmatchGroup (s : String) : Option String :=
  let cs := s.data
  let n := cs.length
  if 4 ≤ n && cs.take 2 == ['\x7b', '\x7b'] && cs.drop (n - 2) == ['\x7d', '\x7d']
      && !(((cs.drop 2).take (n - 4)).contains ('\n'))
  then some (String.mk ((cs.drop 2).take (n - 4)))
  else none

/-- The replacement the Python `replacer` inner function produces for a
matched group: a lookup with an empty-string default, wrapped in f-string
braces. -/
def fstringReplacer (varsName : String) (g : String) : String :=
  "\x7b" ++ varsName ++ ".get('" ++ pyStrip g ++ "', '')\x7d"

/-- `ActionPlugin._resolve_template` (plugins/base.py lines 56-85): a full
placeholder (after stripping) becomes a no-default lookup; a string with
embedded placeholders becomes an f-string whose placeholders are lookups with
empty-string defaults; any other string becomes its `repr`; a non-string
value becomes its `repr`. -/
def resolveTemplate (varsName : String) (value : Json) : String :=
  match value with
  | .str s =>
      match fullmatchGroup (pyStrip s) with
      | some g => varsName ++ ".get('" ++ pyStrip g ++ "')"
      | none =>
          if hasMatch s.data then
            "f\"" ++ String.mk (subAll (fstringReplacer varsName) s.data) ++ "\""
          else pyReprStr s
  | v => pyRepr v

/-! ### Structured reading of resolver output, with runtime semantics -/

/-- A piece of the f-string emitted for a partially-templated config string. -/
inductive FPart where
  | text (s : String)
  | lookupEmptyDefault (name : String)

/-- The three shapes of expression `_resolve_template` emits. -/
inductive ResolvedExpr where
  | lookupNoDefault (name : String)
  | fstr (parts : List FPart)
  | lit (v : Json)

/-- Structured counterpart of `subAll`: the emitted f-string decomposed into
literal text and empty-default lookups. -/
def splitParts (l : List Char) : List FPart :=
  match l with
  | [] => []
  | c :: rest =>
      if c = ('\x7b') ∧ rest.head? = some ('\x7b') then
        match h : findClose rest.tail with
        | some (g, suf) => FPart.lookupEmptyDefault (pyStrip (String.mk g)) :: splitParts suf
        | none => FPart.text (String.mk [c]) :: splitParts rest
      else FPart.text (String.mk [c]) :: splitParts rest
termination_by l.length
decreasing_by
  all_goals simp_wf
  all_goals try (have hlt := findClose_length _ _ _ h)
  all_goals try (have hle : rest.tail.length ≤ rest.length := by cases rest <;> simp [List.tail])
  all_goals try simp only [List.length_cons]
  all_goals omega

/-- Structured counterpart of `resolveTemplate`. -/
def resolveTemplateE (value : Json) : ResolvedExpr :=
  match value with
  | .str s =>
      match fullmatchGroup (pyStrip s) with
      | some g => .lookupNoDefault (pyStrip g)
      | none => if hasMatch s.data then .fstr (splitParts s.data) else .lit (.str s)
  | v => .lit v

/-- Rendering of one f-string piece back to emitted text. -/
def renderFPart (varsName : String) (p : FPart) : String :=
  match p with
  | .text s => s
  | .lookupEmptyDefault n => "\x7b" ++ varsName ++ ".get('" ++ n ++ "', '')\x7d"

/-- Rendering of a structured resolver result back to emitted text. -/
def renderExpr (varsName : String) (e : ResolvedExpr) : String :=
  match e with
  | .lookupNoDefault n => varsName ++ ".get('" ++ n ++ "')"
  | .fstr ps => "f\"" ++ String.join (ps.map (renderFPart varsName)) ++ "\""
  | .lit v => pyRepr v

/-- Runtime value of one f-string piece, given the shared variable mapping
(f-string interpolation applies `str()` to the looked-up value). -/
def evalFPart (vars : List (String × Json)) (p : FPart) : String :=
  match p with
  | .text s => s
  | .lookupEmptyDefault n => pyStr ((lookupStr vars n).getD (Json.str ("")))

/-- Runtime value of an emitted expression, given the shared variable
mapping: a no-default lookup returns the stored value unchanged (or `None`
when unset), an f-string evaluates to text, a literal to itself. -/
def evalResolved (vars : List (String × Json)) (e : ResolvedExpr) : Json :=
  match e with
  | .lookupNoDefault n => (lookupStr vars n).getD Json.null
  | .fstr ps => Json.str (String.join (ps.map (evalFPart vars)))
  | .lit v => v

/-! ### Action plugins (src/wizflow/plugins/)

Each loaded plugin is embedded as its registry name, its `required_imports`
list, the verbatim text of `get_function_definition()`, and a Lean function
mirroring `get_function_call(config)`. -/

/-- An action plugin as the registry holds it. -/
structure Plugin where
  name : String
  required_imports : List String
  functionDefinition : String
  functionCall : Json → String

/-- `LogMessagePlugin.get_function_definition` (plugins/log_message.py). -/
def logMessageDef : String :=
  "\ndef log_message(message, level=\"INFO\"):\n" ++
  "    \"\"\"Logs a message to the console.\"\"\"\n" ++
  "    print(f\"[\x7blevel\x7d] \x7bmessage\x7d\")\n"

/-- `LogMessagePlugin.get_function_call` (plugins/log_message.py lines 25-28):
both config values pass through `repr`, never the template resolver. -/
def logMessageCall (config : Json) : String :=
  let message := pyRepr (jgetD config ("message") (Json.str ("No message provided.")))
  let level := pyRepr (jgetD config ("level") (Json.str ("INFO")))
  "log_message(message=" ++ message ++ ", level=" ++ level ++ ")"

/-- The `log_message` plugin (no `required_imports` override: base default). -/
def logMessagePlugin : Plugin :=
  { name := "log_message", required_imports := [],
    functionDefinition := logMessageDef, functionCall := logMessageCall }

/-- `ApiCallPlugin.get_function_definition` (plugins/api_call.py). -/
def apiCallDef : String :=
  "\ndef make_api_call(url, method=\"GET\", headers=None, data=None):\n" ++
  "    \"\"\"Make HTTP API call\"\"\"\n" ++
  "    try:\n" ++
  "        response = requests.request(method, url, headers=headers, json=data)\n" ++
  "        response.raise_for_status()\n" ++
  "        print(f\"🌐 API call to \x7burl\x7d successful\")\n" ++
  "        # Store result in variables for chaining\n" ++
  "        api_result = response.json() if response.content else None\n" ++
  "        if api_result:\n" ++
  "            variables['api_result'] = api_result\n" ++
  "        return api_result\n" ++
  "    except Exception as e:\n" ++
  "        print(f\"❌ API call failed: \x7be\x7d\")\n" ++
  "        return None\n"

/-- `ApiCallPlugin.get_function_call` (plugins/api_call.py lines 40-52). -/
def apiCallCall (config : Json) : String :=
  let url := pyRepr (jgetD config ("url") (Json.str ("https://api.example.com")))
  let method := pyRepr (jgetD config ("method") (Json.str ("GET")))
  let parts := [("url=" ++ url), ("method=" ++ method)]
  let parts := match jget config ("headers") with
    | some h => if truthy h then parts ++ [("headers=" ++ pyStr h)] else parts
    | none => parts
  let parts := match jget config ("data") with
    | some d => if truthy d then parts ++ [("data=" ++ pyStr d)] else parts
    | none => parts
  "make_api_call(" ++ String.intercalate (", ") parts ++ ")"

/-- The `api_call` plugin. -/
def apiCallPlugin : Plugin :=
  { name := "api_call", required_imports := [("import requests")],
    functionDefinition := apiCallDef, functionCall := apiCallCall }

/-- `SendEmailPlugin.get_function_definition` (plugins/send_email.py). -/
def sendEmailDef : String :=
  "\ndef send_email(to_email, subject, body, smtp_server=\"smtp.gmail.com\", smtp_port=587, variables=\x7b\x7d, creds=\x7b\x7d):\n" ++
  "    \"\"\"Send email via SMTP using stored credentials\"\"\"\n" ++
  "    username = creds.get(\"smtp_user\")\n" ++
  "    password = creds.get(\"smtp_pass\")\n" ++
  "\n" ++
  "    if not username or not password:\n" ++
  "        logger.error(\"❌ SMTP credentials (smtp_user, smtp_pass) not found. Cannot send email.\")\n" ++
  "        return False\n" ++
  "\n" ++
  "    try:\n" ++
  "        msg = MIMEMultipart()\n" ++
  "        msg['From'] = username\n" ++
  "        msg['To'] = to_email\n" ++
  "        msg['Subject'] = subject\n" ++
  "\n" ++
  "        msg.attach(MIMEText(body, 'plain'))\n" ++
  "\n" ++
  "        server = smtplib.SMTP(smtp_server, smtp_port)\n" ++
  "        server.starttls()\n" ++
  "        server.login(username, password)\n" ++
  "        server.send_message(msg)\n" ++
  "        server.quit()\n" ++
  "\n" ++
  "        logger.info(f\"📧 Email sent to \x7bto_email\x7d\")\n" ++
  "        return True\n" ++
  "    except Exception as e:\n" ++
  "        logger.error(f\"❌ Failed to send email: \x7be\x7d\")\n" ++
  "        return False\n"

/-- `SendEmailPlugin.get_function_call` (plugins/send_email.py lines 58-63):
all three config values go through the template resolver. -/
def sendEmailCall (config : Json) : String :=
  let toVal := resolveTemplate ("variables") (jgetD config ("to") (Json.str ("user@example.com")))
  let subject :=
    resolveTemplate ("variables") (jgetD config ("subject") (Json.str ("Workflow Notification")))
  let message :=
    resolveTemplate ("variables") (jgetD config ("message") (Json.str ("Workflow completed")))
  "send_email(to_email=" ++ toVal ++ ", subject=" ++ subject ++ ", body=" ++ message ++
    ", variables=variables, creds=credentials)"

/-- The `send_email` plugin. -/
def sendEmailPlugin : Plugin :=
  { name := "send_email",
    required_imports :=
      [("import smtplib"), ("from email.mime.text import MIMEText"),
       ("from email.mime.multipart import MIMEMultipart")],
    functionDefinition := sendEmailDef, functionCall := sendEmailCall }

/-- `SendWhatsappPlugin.get_function_definition` (plugins/send_whatsapp.py). -/
def sendWhatsappDef : String :=
  "\ndef send_whatsapp(to_number, message, variables=\x7b\x7d, creds=\x7b\x7d):\n" ++
  "    \"\"\"Send WhatsApp message using Twilio\"\"\"\n" ++
  "    account_sid = creds.get(\"twilio_sid\")\n" ++
  "    auth_token = creds.get(\"twilio_token\")\n" ++
  "    from_whatsapp_number = creds.get(\"twilio_whatsapp_from\")\n" ++
  "\n" ++
  "    if not all([account_sid, auth_token, from_whatsapp_number]):\n" ++
  "        logger.warning(\"❌ Twilio credentials (twilio_sid, twilio_token, twilio_whatsapp_from) not found.\")\n" ++
  "        logger.info(f\"📱 Mocking WhatsApp to \x7bto_number\x7d: \x7bmessage\x7d\")\n" ++
  "        return False\n" ++
  "\n" ++
  "    try:\n" ++
  "        from twilio.rest import Client\n" ++
  "        client = Client(account_sid, auth_token)\n" ++
  "        msg = client.messages.create(\n" ++
  "            from_=f'whatsapp:\x7bfrom_whatsapp_number\x7d',\n" ++
  "            body=message,\n" ++
  "            to=f'whatsapp:\x7bto_number\x7d'\n" ++
  "        )\n" ++
  "        logger.info(f\"📱 WhatsApp sent to \x7bto_number\x7d (SID: \x7bmsg.sid\x7d)\")\n" ++
  "        return True\n" ++
  "    except ImportError:\n" ++
  "        logger.error(\"❌ Twilio library not installed. Please run: pip install twilio\")\n" ++
  "        return False\n" ++
  "    except Exception as e:\n" ++
  "        logger.error(f\"❌ Failed to send WhatsApp: \x7btype(e).__name__\x7d\")\n" ++
  "        return False\n"

/-- `SendWhatsappPlugin.get_function_call` (plugins/send_whatsapp.py 55-59). -/
def sendWhatsappCall (config : Json) : String :=
  let toVal := resolveTemplate ("variables") (jgetD config ("to") (Json.str ("+1234567890")))
  let message :=
    resolveTemplate ("variables") (jgetD config ("message") (Json.str ("Workflow message")))
  "send_whatsapp(to_number=" ++ toVal ++ ", message=" ++ message ++
    ", variables=variables, creds=credentials)"

/-- The `send_whatsapp` plugin (`required_imports` deliberately empty: the
twilio import happens inside the function body). -/
def sendWhatsappPlugin : Plugin :=
  { name := "send_whatsapp", required_imports := [],
    functionDefinition := sendWhatsappDef, functionCall := sendWhatsappCall }

/-- `WebScrapePlugin.get_function_definition` (plugins/web_scrape.py). -/
def webScrapeDef : String :=
  "\ndef scrape_web(url, selector=None, variables=\x7b\x7d, creds=\x7b\x7d):\n" ++
  "    \"\"\"Scrape web content\"\"\"\n" ++
  "    try:\n" ++
  "        response = requests.get(url)\n" ++
  "        response.raise_for_status()\n" ++
  "        soup = BeautifulSoup(response.content, 'html.parser')\n" ++
  "\n" ++
  "        if selector:\n" ++
  "            elements = soup.select(selector)\n" ++
  "            content = [elem.get_text().strip() for elem in elements]\n" ++
  "        else:\n" ++
  "            content = soup.get_text().strip()\n" ++
  "\n" ++
  "        logger.info(f\"🕷️  Scraped content from \x7burl\x7d\")\n" ++
  "        if content:\n" ++
  "            return \x7b\"scraped_content\": content\x7d\n" ++
  "        return None\n" ++
  "    except Exception as e:\n" ++
  "        logger.error(f\"❌ Web scraping failed: \x7be\x7d\")\n" ++
  "        return None\n"

/-- `WebScrapePlugin.get_function_call` (plugins/web_scrape.py lines 46-54). -/
def webScrapeCall (config : Json) : String :=
  let url := resolveTemplate ("variables") (jgetD config ("url") (Json.str ("https://example.com")))
  let selector := resolveTemplate ("variables") (jgetD config ("selector") Json.null)
  let parts := [("url=" ++ url)]
  let parts := match jget config ("selector") with
    | some s => if truthy s then parts ++ [("selector=" ++ selector)] else parts
    | none => parts
  "scrape_web(" ++ String.intercalate (", ") parts ++ ", variables=variables, creds=credentials)"

/-- The `web_scrape` plugin. -/
def webScrapePlugin : Plugin :=
  { name := "web_scrape",
    required_imports := [("import requests"), ("from bs4 import BeautifulSoup")],
    functionDefinition := webScrapeDef, functionCall := webScrapeCall }

/-- `FileProcessPlugin.get_function_definition` (plugins/file_process.py). -/
def fileProcessDef : String :=
  "\ndef process_file(filepath, operation=\"read\", content_to_write=\"\"):\n" ++
  "    \"\"\"Process file operations\"\"\"\n" ++
  "    try:\n" ++
  "        if operation == \"read\":\n" ++
  "            with open(filepath, 'r') as f:\n" ++
  "                content = f.read()\n" ++
  "            print(f\"📄 Read file: \x7bfilepath\x7d\")\n" ++
  "            return content\n" ++
  "        elif operation == \"write\":\n" ++
  "            with open(filepath, 'w') as f:\n" ++
  "                f.write(content_to_write)\n" ++
  "            print(f\"✍️  Wrote to file: \x7bfilepath\x7d\")\n" ++
  "            return True\n" ++
  "    except Exception as e:\n" ++
  "        print(f\"❌ File operation failed: \x7be\x7d\")\n" ++
  "        return None\n"

/-- `FileProcessPlugin.get_function_call` (plugins/file_process.py lines
40-49); `output_variable_name` is the truthy string `"file_content"`, and the
assignment form is chosen when the `repr` of the operation equals `'read'`. -/
def fileProcessCall (config : Json) : String :=
  let filepath := pyRepr (jgetD config ("filepath") (Json.str ("data.txt")))
  let operation := pyRepr (jgetD config ("operation") (Json.str ("read")))
  let content := pyRepr (jgetD config ("content") (Json.str ("")))
  let callStr := "process_file(filepath=" ++ filepath ++ ", operation=" ++ operation ++
    ", content_to_write=" ++ content ++ ")"
  if operation = "'read'" then "variables['file_content'] = " ++ callStr else callStr

/-- The `file_process` plugin (no `required_imports` override). -/
def fileProcessPlugin : Plugin :=
  { name := "file_process", required_imports := [],
    functionDefinition := fileProcessDef, functionCall := fileProcessCall }

/-- `SummarizePlugin.get_function_definition` (plugins/summarize.py); the
defining module fails to import in this source tree, see the registry below. -/
def summarizeDef : String :=
  "\ndef summarize_text(text, max_length=100):\n" ++
  "    \"\"\"\n" ++
  "    Summarize text using the configured LLM provider.\n" ++
  "    \"\"\"\n" ++
  "    print(\"🧠 Performing AI summarization...\")\n" ++
  "    try:\n" ++
  "        # Initialize LLM interface within the function\n" ++
  "        config = Config()\n" ++
  "        llm = LLMInterface(config)\n" ++
  "\n" ++
  "        system_prompt = f\"Summarize the following text in under \x7bmax_length\x7d words.\"\n" ++
  "        prompt = text\n" ++
  "\n" ++
  "        summary = llm.provider.generate(prompt, system_prompt)\n" ++
  "\n" ++
  "        print(f\"📝 Summary: \x7bsummary\x7d\")\n" ++
  "        return summary\n" ++
  "    except Exception as e:\n" ++
  "        print(f\"❌ AI summarization failed: \x7be\x7d\")\n" ++
  "        return None\n"

/-- `SummarizePlugin.get_function_call` (plugins/summarize.py lines 51-61) as
written: a JSON config value is never a `LoopVariable` (and the name does not
even exist), so the `repr` branch is the one taken. -/
def summarizeCall (config : Json) : String :=
  let input_text := pyRepr (jgetD config ("input_text") (Json.str ("Sample text to summarize.")))
  let max_length := pyStr (jgetD config ("max_length") (Json.num 100))
  "summarize_text(text=" ++ input_text ++ ", max_length=" ++ max_length ++ ")"

/-- The `summarize` plugin object (never reaches the registry: its module's
`from .base import ActionPlugin, LoopVariable` fails, see `baseExports`). -/
def summarizePlugin : Plugin :=
  { name := "summarize",
    required_imports :=
      [("from wizflow.core.config import Config"),
       ("from wizflow.core.llm_interface import LLMInterface")],
    functionDefinition := summarizeDef, functionCall := summarizeCall }

/-! ### Plugin registry (core/plugin_manager.py)

`PluginManager._load_plugins` iterates the modules of `wizflow.plugins`
(skipping `base` and `trigger_base`), imports each inside a `try` block, and
registers every concrete plugin class found; a module whose import or
instantiation raises is logged and contributes nothing, and loading
continues with the remaining modules.

The only failure mode present in this source tree is a package-internal
attempt to use a missing name: `plugins/summarize.py` line 6 runs
`from .base import ActionPlugin, LoopVariable`, and `plugins/base.py`
defines no `LoopVariable`.  Third-party imports (watchdog, croniter, ...)
are modelled as succeeding, as the repository's requirements provide them. -/

/-- One module of the `wizflow.plugins` package: the names it imports from
`wizflow.plugins.base`, the names it imports from
`wizflow.plugins.trigger_base`, and the plugins its classes provide. -/
structure PluginModule where
  modname : String
  fromBase : List String
  fromTriggerBase : List String
  actions : List Plugin
  triggers : List String

/-- The attributes of `wizflow.plugins.base` visible to `from .base import
...`: its own top-level imports plus the single class it defines.  There is
no `LoopVariable`. -/
def baseExports : List String :=
  ["re", "ABC", "abstractmethod", "List", "Dict", "Any", "ActionPlugin"]

/-- The attributes of `wizflow.plugins.trigger_base` visible to
`from .trigger_base import ...`. -/
def triggerBaseExports : List String :=
  ["ABC", "abstractmethod", "Dict", "Any", "Callable", "TriggerPlugin"]

/-- Importing one plugin module: fails (raising `ImportError`, caught by the
manager) exactly when it names a missing attribute of `base`/`trigger_base`. -/
def loadModule (m : PluginModule) : Except String (List Plugin × List String) :=
  if m.fromBase.all (fun n => n ∈ baseExports)
      && m.fromTriggerBase.all (fun n => n ∈ triggerBaseExports)
  then .ok (m.actions, m.triggers)
  else .error ("ImportError in " ++ m.modname)

/-- The registry the manager builds. -/
structure Registry where
  action_plugins : List (String × Plugin)
  trigger_plugins : List String

/-- `self.action_plugins[name] = instance`: overwrite or append. -/
def pluginDictSet (d : List (String × Plugin)) (k : String) (v : Plugin) :
    List (String × Plugin) :=
  match d with
  | [] => [(k, v)]
  | (k', v') :: rest => if k' = k then (k', v) :: rest else (k', v') :: pluginDictSet rest k v

/-- Process one module inside the manager's `try`/`except`: a load error is
logged and skipped; nothing from that module is registered. -/
def registerModule (reg : Registry) (m : PluginModule) : Registry :=
  match loadModule m with
  | .ok (acts, trigs) =>
      { action_plugins := acts.foldl (fun d p => pluginDictSet d p.name p) reg.action_plugins,
        trigger_plugins :=
          trigs.foldl (fun d t => if t ∈ d then d else d ++ [t]) reg.trigger_plugins }
  | .error _ => reg

/-- `PluginManager._load_plugins`: fold over all modules.  Total by
construction — registry construction itself never raises. -/
def loadPlugins (mods : List PluginModule) : Registry :=
  mods.foldl registerModule { action_plugins := [], trigger_plugins := [] }

/-- The modules of `wizflow.plugins` in iteration order (`base` and
`trigger_base` are skipped by the manager before the `try` block). -/
def pluginModules : List PluginModule :=
  [ { modname := "wizflow.plugins.api_call", fromBase := [("ActionPlugin")],
      fromTriggerBase := [], actions := [apiCallPlugin], triggers := [] },
    { modname := "wizflow.plugins.file_process", fromBase := [("ActionPlugin")],
      fromTriggerBase := [], actions := [fileProcessPlugin], triggers := [] },
    { modname := "wizflow.plugins.file_trigger", fromBase := [],
      fromTriggerBase := [("TriggerPlugin")], actions := [], triggers := [("file")] },
    { modname := "wizflow.plugins.log_message", fromBase := [("ActionPlugin")],
      fromTriggerBase := [], actions := [logMessagePlugin], triggers := [] },
    { modname := "wizflow.plugins.schedule_trigger", fromBase := [],
      fromTriggerBase := [("TriggerPlugin")], actions := [], triggers := [("schedule")] },
    { modname := "wizflow.plugins.send_email", fromBase := [("ActionPlugin")],
      fromTriggerBase := [], actions := [sendEmailPlugin], triggers := [] },
    { modname := "wizflow.plugins.send_whatsapp", fromBase := [("ActionPlugin")],
      fromTriggerBase := [], actions := [sendWhatsappPlugin], triggers := [] },
    { modname := "wizflow.plugins.summarize", fromBase := [("ActionPlugin"), ("LoopVariable")],
      fromTriggerBase := [], actions := [summarizePlugin], triggers := [] },
    { modname := "wizflow.plugins.web_scrape", fromBase := [("ActionPlugin")],
      fromTriggerBase := [], actions := [webScrapePlugin], triggers := [] },
    { modname := "wizflow.plugins.webhook_trigger", fromBase := [],
      fromTriggerBase := [("TriggerPlugin")], actions := [], triggers := [("webhook")] } ]

/-- The registry of this source tree. -/
def theRegistry : Registry := loadPlugins pluginModules

/-- `PluginManager.get_action_plugin`. -/
def getActionPlugin (reg : Registry) (name : String) : Option Plugin :=
  lookupPlugin reg.action_plugins name
where
  lookupPlugin : List (String × Plugin) → String → Option Plugin
  | [], _ => none
  | (k, v) :: rest, n => if k = n then some v else lookupPlugin rest n

/-! ### Code generator (core/code_generator.py)

Several emission sites of `_generate_imports`, `_generate_action_definitions`
and `_generate_action_calls` write the two-character sequence backslash-`n`
(the Python source spells `'\\n'` inside ordinary string literals), not a
newline; the embedding reproduces those two characters verbatim, as the
generated file receives them. -/

/-- The workflow's trigger type as `_get_allowed_modules` and
`_generate_imports` read it: `workflow.get("trigger", \x7b\x7d).get("type")`
(only a string value can compare equal to the trigger names). -/
def triggerTypeStr (w : Json) : Option String :=
  match jget (jgetD w ("trigger") (Json.obj [])) ("type") with
  | some (.str s) => some s
  | _ => none

/-- Does some action carry a truthy `on_error.retry` value (lines 79-82 and
161-164: `action.get('on_error', \x7b\x7d).get('retry')` under `if`)? -/
def anyActionRetry (w : Json) : Bool :=
  (jarr (jgetD w ("actions") (Json.arr []))).any
    (fun a => truthy (jgetD (jgetD a ("on_error") (Json.obj [])) ("retry") Json.null))

/-- `CodeGenerator._get_required_plugins` (lines 38-48): the set of plugins
resolved from the action list (instance identity coincides with name
equality, since the registry holds one instance per name), together with the
warning printed for each unmatched action type. -/
def getRequiredPlugins (reg : Registry) (w : Json) : List Plugin × List String :=
  (jarr (jgetD w ("actions") (Json.arr []))).foldl
    (fun acc a =>
      let typeVal := jgetD a ("type") Json.null
      match (match typeVal with | .str s => getActionPlugin reg s | _ => none) with
      | some p =>
          (if acc.1.any (fun q => q.name = p.name) then acc.1 else acc.1 ++ [p], acc.2)
      | none =>
          (acc.1,
           acc.2 ++ [("⚠️  Warning: No plugin found for action type '" ++ pyStr typeVal ++
             "'. It will be skipped.")]))
    ([], [])

/-- The module named by one `required_imports` entry (lines 57-62):
`imp.split()` and the second token of an `import X` or `from X import ...`
statement; other shapes add nothing.  (A bare `import` or an empty entry
would raise `IndexError` in Python; no plugin of this tree has one.) -/
def importModuleName (imp : String) : Option String :=
  match pySplit imp with
  | p0 :: p1 :: _ =>
      if p0 = "import" then some p1 else if p0 = "from" then some p1 else none
  | _ => none

/-- `CodeGenerator._get_allowed_modules` (lines 50-84). -/
def getAllowedModules (plugins : List Plugin) (w : Json) : List String :=
  let allowed := [("json"), ("sys"), ("datetime"), ("typing"), ("os"), ("logging")]
  let allowed := plugins.foldl
    (fun acc p =>
      p.required_imports.foldl
        (fun acc2 imp =>
          match importModuleName imp with
          | some m => pysetInsert acc2 m
          | none => acc2) acc) allowed
  let allowed := pysetInsert allowed ("wizflow.core.credentials")
  let allowed := pysetInsert allowed ("wizflow.core.config")
  let allowed := pysetInsert allowed ("wizflow.core.llm_interface")
  let trig := triggerTypeStr w
  let allowed :=
    if trig = some ("file") ∨ trig = some ("schedule") then pysetInsert allowed ("time")
    else allowed
  let allowed :=
    if trig = some ("file") then
      pysetInsert (pysetInsert allowed ("watchdog.observers")) ("watchdog.events")
    else if trig = some ("schedule") then pysetInsert allowed ("croniter")
    else if trig = some ("webhook") then pysetInsert allowed ("http.server")
    else allowed
  if anyActionRetry w then pysetInsert allowed ("time") else allowed

/-- `CodeGenerator._get_base_template` (lines 86-140): the f-string template
with `allowed_modules_str = json.dumps(list(allowed_modules))` interpolated. -/
def getBaseTemplate (allowedModules : List String) : String :=
  let allowedModulesStr := jsonDumps (Json.arr (allowedModules.map Json.str))
  "#!/usr/bin/env python3\n" ++
  "\"\"\"\n" ++
  "Auto-generated workflow by WizFlow\n" ++
  "\"\"\"\n" ++
  "\n" ++
  "import json\n" ++
  "import os\n" ++
  "import sys\n" ++
  "import logging\n" ++
  "from datetime import datetime\n" ++
  "from typing import Dict, Any\n" ++
  "\n" ++
  "# --- Logger Setup ---\n" ++
  "logger = logging.getLogger(__name__)\n" ++
  "logger.setLevel(logging.INFO)\n" ++
  "handler = logging.StreamHandler(sys.stdout)\n" ++
  "handler.setFormatter(logging.Formatter('%(message)s'))\n" ++
  "if not logger.handlers:\n" ++
  "    logger.addHandler(handler)\n" ++
  "# --- End Logger Setup ---\n" ++
  "\n" ++
  "# Assuming wizflow is installed or in python path\n" ++
  "try:\n" ++
  "    from wizflow.core.credentials import CredentialManager\n" ++
  "except ImportError:\n" ++
  "    class CredentialManager:\n" ++
  "        def load_credentials(self):\n" ++
  "            logger.warning(\"Warning: Standalone script, credentials will be empty.\")\n" ++
  "            return \x7b\x7d\n" ++
  "\n" ++
  "# --- Security Sandbox: Restrict Imports ---\n" ++
  "import json\n" ++
  "_original_import = __import__\n" ++
  "def _secure_import(name, globals=None, locals=None, fromlist=(), level=0):\n" ++
  "    ALLOWED_MODULES = set(json.loads('" ++ allowedModulesStr ++ "'))\n" ++
  "    \n" ++
  "    if name.startswith('wizflow.') and level > 0:\n" ++
  "        pass\n" ++
  "    elif '.'.join(name.split('.')[:-1]) in ALLOWED_MODULES:\n" ++
  "        pass\n" ++
  "    elif name not in ALLOWED_MODULES:\n" ++
  "        parts = name.split('.')\n" ++
  "        if parts[0] not in ALLOWED_MODULES:\n" ++
  "            raise ImportError(f\"Disallowed import: '\x7bname\x7d'\")\n" ++
  "\n" ++
  "    return _original_import(name, globals, locals, fromlist, level)\n" ++
  "\n" ++
  "__builtins__['__import__'] = _secure_import\n" ++
  "# --- End Security Sandbox ---\n"

/-- `CodeGenerator._generate_metadata_section` (lines 142-148). -/
def generateMetadataSection (w : Json) : String :=
  "\n# Workflow Metadata\nWORKFLOW_INFO = " ++
    jsonDumpsIndent 0 (jgetD w ("metadata") (Json.obj [])) ++ "\n"

/-- `CodeGenerator._generate_imports` (lines 150-180).  The prefix, the join
separator and the suffix are the two-character sequence backslash-`n`, as the
source writes `'\\n'` in plain string literals. -/
def generateImports (plugins : List Plugin) (w : Json) : String :=
  let imports := plugins.foldl (fun acc p => p.required_imports.foldl pysetInsert acc) []
  let trig := triggerTypeStr w
  let needsTime :=
    trig = some ("file") ∨ trig = some ("schedule") ∨ anyActionRetry w = true
  let imports := if needsTime then pysetInsert imports ("import time") else imports
  let imports :=
    if trig = some ("file") then
      pysetInsert (pysetInsert imports ("from watchdog.observers import Observer"))
        ("from watchdog.events import FileSystemEventHandler")
    else if trig = some ("schedule") then
      pysetInsert imports ("from croniter import croniter")
    else if trig = some ("webhook") then
      pysetInsert imports ("from http.server import BaseHTTPRequestHandler, HTTPServer")
    else imports
  if imports.isEmpty then ""
  else "\\n# Additional imports\\n" ++ String.intercalate ("\\n") (sortStrings imports) ++ "\\n"

/-- `CodeGenerator._generate_action_definitions` (lines 182-189); the section
markers and separators again carry literal backslash-`n` pairs. -/
def generateActionDefinitions (plugins : List Plugin) : String :=
  "\\n# --- Action Function Definitions ---\\n" ++
    String.join (plugins.map (fun p => p.functionDefinition ++ "\\n")) ++
    "# --- End Action Function Definitions ---\\n"

/-- Lines 246-249: the retry configuration governs the action exactly when
`action.get('on_error')` is truthy and its `retry` entry is a truthy dict. -/
def activeRetry (a : Json) : Option Json :=
  match jget a ("on_error") with
  | some oe =>
      if truthy oe then
        match jget oe ("retry") with
        | some (.obj kvs) => if kvs.isEmpty then none else some (Json.obj kvs)
        | _ => none
      else none
  | none => none

/-- The emitted lines for action number `i` (1-based), from the body of the
loop in `_generate_action_calls` (lines 233-275).  `\\n` and `\\\"` inside
the Lean literals denote the literal backslash-`n` and backslash-quote pairs
the Python source emits. -/
def actionCallLines (reg : Registry) (i : Nat) (a : Json) : List String :=
  let actionType := pyStr (jgetD a ("type") (Json.str ("unknown")))
  let header :=
    [("\\n        # --- Action " ++ toString i ++ ": " ++ actionType ++ " ---"),
     ("        logger.info(f\\\"▶️  Executing action " ++ toString i ++ ": " ++ actionType ++ "\\\")")]
  match (match jgetD a ("type") (Json.str ("unknown")) with
         | .str s => getActionPlugin reg s
         | _ => none) with
  | none =>
      header ++
        [("        logger.warning(\\\"🤷‍♂️ Action '" ++ actionType ++
          "' skipped (no plugin found).\\\")")]
  | some plugin =>
      let callCode := plugin.functionCall (jgetD a ("config") (Json.obj []))
      match activeRetry a with
      | some rc =>
          let retryCount := pyInt (jgetD rc ("count") (Json.num 3))
          let retryDelay := jgetD rc ("delay_seconds") (Json.num 5)
          header ++
          [("        action_success = False"),
           ("        for attempt in range(" ++ toString retryCount ++ "):"),
           ("            try:"),
           ("                logger.debug(f\\\"Attempt \x7b\x7battempt + 1\x7d\x7d/" ++
             toString retryCount ++ " for action '" ++ actionType ++ "'...\\\")"),
           ("                new_variables = " ++ callCode),
           ("                if isinstance(new_variables, dict):"),
           ("                    variables.update(new_variables)"),
           ("                logger.info(f\\\"✅ Action '" ++ actionType ++
             "' completed successfully on attempt \x7b\x7battempt + 1\x7d\x7d.\\\")"),
           ("                action_success = True"),
           ("                break"),
           ("            except Exception as e:"),
           ("                logger.warning(f\\\"⚠️  Attempt \x7b\x7battempt + 1\x7d\x7d/" ++
             toString retryCount ++ " for action '" ++ actionType ++
             "' failed with error: \x7b\x7btype(e).__name__\x7d\x7d\\\")"),
           ("                if attempt < " ++ toString (retryCount - 1) ++ ":"),
           ("                    logger.info(f\\\"Retrying in " ++ pyStr retryDelay ++
             " seconds...\\\")"),
           ("                    time.sleep(" ++ pyStr retryDelay ++ ")"),
           ("        if not action_success:"),
           ("            logger.error(f\\\"❌ Action '" ++ actionType ++ "' failed after " ++
             toString retryCount ++ " attempts.\\\")"),
           ("            raise RuntimeError(f\\\"Action '" ++ actionType ++
             "' failed permanently.\\\")")]
      | none =>
          header ++
          [("        new_variables = " ++ callCode),
           ("        if isinstance(new_variables, dict):"),
           ("            variables.update(new_variables)")]

/-- `CodeGenerator._generate_action_calls` (lines 230-277): the per-action
lines in document order, joined with the two-character sequence
backslash-`n` (`'\\n'.join(lines)` on line 277). -/
def generateActionCalls (reg : Registry) (w : Json) : String :=
  let actions := jarr (jgetD w ("actions") (Json.arr []))
  String.intercalate ("\\n")
    ((actions.enum.map (fun p => actionCallLines reg (p.1 + 1) p.2)).flatten)

/-- `CodeGenerator._generate_main_function` (lines 191-228): real newlines in
the header and footer (they come from f-string triple-quoted blocks), the
action-call text in between. -/
def generateMainFunction (reg : Registry) (w : Json) : String :=
  let name := pyStr (jgetD w ("name") (Json.str ("Generated Workflow")))
  let description := pyStr (jgetD w ("description") (Json.str ("Auto-generated workflow")))
  let header :=
    "\ndef run_workflow(trigger_data: Dict[str, Any] = None):\n" ++
    "    \"\"\"\n" ++
    "    Main workflow function: " ++ name ++ "\n" ++
    "    Description: " ++ description ++ "\n" ++
    "    \"\"\"\n" ++
    "    logger.info(f\"🚀 Starting workflow: " ++ name ++ "\")\n" ++
    "    logger.info(f\"📋 Description: " ++ description ++ "\")\n" ++
    "\n" ++
    "    variables = trigger_data if trigger_data is not None else \x7b\x7d\n" ++
    "\n" ++
    "    try:\n" ++
    "        cred_manager = CredentialManager()\n" ++
    "        credentials = cred_manager.load_credentials()\n" ++
    "        logger.debug(\"🔒 Credentials loaded.\")\n" ++
    "    except Exception as e:\n" ++
    "        logger.error(f\"❌ Error loading credentials: \x7btype(e).__name__\x7d\")\n" ++
    "        credentials = \x7b\x7d\n" ++
    "\n" ++
    "    try:\n"
  let footer :=
    "\n        logger.info(\"✅ Workflow completed successfully\")\n" ++
    "        return True\n" ++
    "        \n" ++
    "    except Exception as e:\n" ++
    "        logger.error(f\"❌ Workflow failed with error: \x7btype(e).__name__\x7d\")\n" ++
    "        logger.debug(f\"Full error: \x7be\x7d\", exc_info=True)\n" ++
    "        return False\n"
  header ++ generateActionCalls reg w ++ footer

/-- Python `value == "name"` comparison of a JSON value against a string
literal: true only for the equal string (mixed-type `==` is `False`). -/
def jsonIsStr (j : Json) (s : String) : Bool :=
  match j with
  | .str t => t = s
  | _ => false

/-- `CodeGenerator._generate_main_execution` (lines 279-373): the five
trigger harness variants (all are f-string triple-quoted blocks with real
newlines; doubled source braces appear singly in the output, quadrupled ones
doubly). -/
def generateMainExecution (w : Json) : String :=
  let triggerType := jgetD (jgetD w ("trigger") (Json.obj [])) ("type") (Json.str ("manual"))
  if jsonIsStr triggerType ("manual") then
    "\nif __name__ == \"__main__\":\n" ++
    "    success = run_workflow(trigger_data=None)\n" ++
    "    sys.exit(0 if success else 1)\n"
  else if jsonIsStr triggerType ("file") then
    let path := pyStr (jgetD (jgetD w ("trigger") (Json.obj [])) ("path") (Json.str (".")))
    "\nclass FileTriggerHandler(FileSystemEventHandler):\n" ++
    "    def on_created(self, event):\n" ++
    "        if not event.is_directory:\n" ++
    "            logger.info(f\"New file created: \x7b\x7bevent.src_path\x7d\x7d\")\n" ++
    "            trigger_data = \x7b\"event_type\": \"created\", \"src_path\": event.src_path\x7d\n" ++
    "            run_workflow(trigger_data=trigger_data)\n" ++
    "\n" ++
    "if __name__ == \"__main__\":\n" ++
    "    path = \"" ++ path ++ "\"\n" ++
    "    logger.info(f\"Watching for new files in \x7b\x7bpath\x7d\x7d...\")\n" ++
    "    event_handler = FileTriggerHandler()\n" ++
    "    observer = Observer()\n" ++
    "    observer.schedule(event_handler, path, recursive=True)\n" ++
    "    observer.start()\n" ++
    "    try:\n" ++
    "        while True:\n" ++
    "            time.sleep(1)\n" ++
    "    except KeyboardInterrupt:\n" ++
    "        observer.stop()\n" ++
    "    observer.join()\n"
  else if jsonIsStr triggerType ("schedule") then
    let schedule :=
      pyStr (jgetD (jgetD w ("trigger") (Json.obj [])) ("schedule") (Json.str ("* * * * *")))
    "\nif __name__ == \"__main__\":\n" ++
    "    schedule_str = \"" ++ schedule ++ "\"\n" ++
    "    logger.info(f\"Running on schedule: \x7b\x7bschedule_str\x7d\x7d\")\n" ++
    "    base_time = datetime.now()\n" ++
    "    while True:\n" ++
    "        try:\n" ++
    "            iter = croniter(schedule_str, base_time)\n" ++
    "            next_run_time = iter.get_next(datetime)\n" ++
    "\n" ++
    "            sleep_seconds = (next_run_time - datetime.now()).total_seconds()\n" ++
    "\n" ++
    "            if sleep_seconds > 0:\n" ++
    "                time.sleep(sleep_seconds)\n" ++
    "\n" ++
    "            run_workflow(trigger_data=None)\n" ++
    "\n" ++
    "            base_time = next_run_time\n" ++
    "        except Exception as e:\n" ++
    "            logger.error(f\"Error in scheduler: \x7b\x7btype(e).__name__\x7d\x7d\")\n" ++
    "            time.sleep(60)\n"
  else if jsonIsStr triggerType ("webhook") then
    let host := pyStr (jgetD (jgetD w ("trigger") (Json.obj [])) ("host") (Json.str ("localhost")))
    let port := pyInt (jgetD (jgetD w ("trigger") (Json.obj [])) ("port") (Json.num 8080))
    let path := pyStr (jgetD (jgetD w ("trigger") (Json.obj [])) ("path") (Json.str ("/")))
    "\nclass WebhookHandler(BaseHTTPRequestHandler):\n" ++
    "    def do_POST(s):\n" ++
    "        if s.path == \"" ++ path ++ "\":\n" ++
    "            content_length = int(s.headers['Content-Length'])\n" ++
    "            post_data = s.rfile.read(content_length)\n" ++
    "\n" ++
    "            s.send_response(200)\n" ++
    "            s.end_headers()\n" ++
    "            s.wfile.write(b'OK')\n" ++
    "\n" ++
    "            try:\n" ++
    "                data = json.loads(post_data)\n" ++
    "            except json.JSONDecodeError:\n" ++
    "                data = \x7b\"raw\": post_data.decode('utf-8')\x7d\n" ++
    "\n" ++
    "            run_workflow(trigger_data=\x7b\"data\": data\x7d)\n" ++
    "        else:\n" ++
    "            s.send_error(404, \"Not Found\")\n" ++
    "\n" ++
    "if __name__ == \"__main__\":\n" ++
    "    host = \"" ++ host ++ "\"\n" ++
    "    port = " ++ toString port ++ "\n" ++
    "    logger.info(f\"Starting webhook server on http://\x7b\x7bhost\x7d\x7d:\x7b\x7bport\x7d\x7d\")\n" ++
    "    with HTTPServer((host, port), WebhookHandler) as httpd:\n" ++
    "        httpd.serve_forever()\n"
  else
    "\nif __name__ == \"__main__\":\n" ++
    "    logger.error(\"Unknown trigger type: " ++ pyStr triggerType ++ "\")\n" ++
    "    sys.exit(1)\n"

/-- `CodeGenerator.generate_code` (lines 21-36): concatenation of the six
sections, with the required plugins and allowed modules computed first. -/
def generateCode (reg : Registry) (w : Json) : String :=
  let requiredPlugins := (getRequiredPlugins reg w).1
  let allowedModules := getAllowedModules requiredPlugins w
  getBaseTemplate allowedModules ++ generateMetadataSection w ++
    generateImports requiredPlugins w ++ generateActionDefinitions requiredPlugins ++
    generateMainFunction reg w ++ generateMainExecution w

/-! ### Operational reading of the emitted retry block

`actionCallLines` emits, for a retry-governed action, the block

    action_success = False
    for attempt in range(count):
        try:
            new_variables = <call>
            if isinstance(new_variables, dict): variables.update(new_variables)
            action_success = True
            break
        except Exception:
            if attempt < count - 1:
                time.sleep(delay)
    if not action_success:
        raise RuntimeError("Action '<type>' failed permanently.")

(logging elided).  `retryGo` is that block's operational reading, with the
underlying call modelled per attempt: `none` means the call raises, `some v`
that it returns `v`. -/

/-- Observables of one execution of the emitted retry block: attempts made,
sleeps performed (in order, with their durations), the shared mapping
afterwards, and the fatal `RuntimeError` message if the block raised (which
propagates to `run_workflow`'s outer boundary and ends the run as failed). -/
structure RetryRun where
  attempts : Nat
  sleeps : List Int
  vars : List (String × Json)
  fatal : Option String

/-- The loop from attempt `a` with `n = count - a` iterations remaining.  A
successful call merges a dict result and breaks; a raising call sleeps
`delay` when further attempts remain (`attempt < count - 1`, i.e. `0 < n - 1`
here); a loop finishing without success raises the tagged error. -/
def retryGo (actionType : String) (delay : Int) (call : Nat → Option Json)
    (a : Nat) (n : Nat) (vars : List (String × Json)) : RetryRun :=
  match n with
  | 0 =>
      { attempts := 0, sleeps := [], vars := vars,
        fatal := some ("Action '" ++ actionType ++ "' failed permanently.") }
  | Nat.succ m =>
      match call a with
      | some nv =>
          { attempts := 1, sleeps := [],
            vars := (match nv with | Json.obj kvs => dictUpdate vars kvs | _ => vars),
            fatal := none }
      | none =>
          let tail := retryGo actionType delay call (a + 1) m vars
          { attempts := 1 + tail.attempts,
            sleeps := (if 0 < m then [delay] else []) ++ tail.sleeps,
            vars := tail.vars, fatal := tail.fatal }

/-- The emitted retry block for an action of type `actionType` with retry
`count`/`delay`, run against the per-attempt call outcomes. -/
def runRetryBlock (actionType : String) (count : Nat) (delay : Int)
    (call : Nat → Option Json) (vars : List (String × Json)) : RetryRun :=
  retryGo actionType delay call 0 count vars

/-! ### Operational reading of the emitted webhook harness -/

/-- Observable events of the emitted `WebhookHandler.do_POST`. -/
inductive WebhookEvent where
  | sendResponse (code : Nat) (body : String)
  | sendError (code : Nat) (msg : String)
  | invoke (payload : Json)

/-- The emitted `do_POST` (webhook branch of `_generate_main_execution`):
`cfgPath` is the path baked into the emitted text, `reqPath`/`body` the
request, and `parsed` the outcome of `json.loads(post_data)` (`none` =
`json.JSONDecodeError`, handled by the raw-bytes fallback).  On a matching
path the fixed `200`/`OK` response is written first, then the workflow
function is invoked with the payload; elsewhere only a `404` is sent. -/
def webhookHandlePost (cfgPath reqPath : String) (body : String)
    (parsed : Option Json) : List WebhookEvent :=
  if reqPath = cfgPath then
    let data :=
      match parsed with
      | some d => d
      | none => Json.obj [(("raw"), Json.str body)]
    [WebhookEvent.sendResponse 200 ("OK"),
     WebhookEvent.invoke (Json.obj [(("data"), data)])]
  else
    [WebhookEvent.sendError 404 ("Not Found")]

/-! ### Concrete workflow documents used by the claims -/

/-- The spec's retry scenario: one `log_message` action with
`on_error.retry\x7bcount: 5, delay_seconds: 10\x7d`, manual trigger. -/
def retryWorkflow : Json :=
  Json.obj
    [(("name"), Json.str ("Retry Test Workflow")),
     (("trigger"), Json.obj [(("type"), Json.str ("manual"))]),
     (("actions"),
      Json.arr
        [Json.obj
          [(("type"), Json.str ("log_message")),
           (("config"), Json.obj [(("message"), Json.str ("Trying something..."))]),
           (("on_error"),
            Json.obj
              [(("retry"),
                Json.obj [(("count"), Json.num 5), (("delay_seconds"), Json.num 10)])])]])]

/-- A `log_message` action carrying both a `condition` and a `loop` field. -/
def condLoopWorkflow : Json :=
  Json.obj
    [(("trigger"), Json.obj [(("type"), Json.str ("manual"))]),
     (("actions"),
      Json.arr
        [Json.obj
          [(("type"), Json.str ("log_message")),
           (("config"), Json.obj [(("message"), Json.str ("\x7b\x7bitem\x7d\x7d"))]),
           (("condition"), Json.str ("\x7b\x7bflag\x7d\x7d")),
           (("loop"), Json.str ("item in items"))]])]

/-- The same action with the `condition` and `loop` fields removed. -/
def plainWorkflow : Json :=
  Json.obj
    [(("trigger"), Json.obj [(("type"), Json.str ("manual"))]),
     (("actions"),
      Json.arr
        [Json.obj
          [(("type"), Json.str ("log_message")),
           (("config"), Json.obj [(("message"), Json.str ("\x7b\x7bitem\x7d\x7d"))])]])]

/-- The spec's unmatched-plugin scenario: a `bogus_action` followed by a
`log_message`. -/
def bogusWorkflow : Json :=
  Json.obj
    [(("trigger"), Json.obj [(("type"), Json.str ("manual"))]),
     (("actions"),
      Json.arr
        [Json.obj [(("type"), Json.str ("bogus_action"))],
         Json.obj
          [(("type"), Json.str ("log_message")),
           (("config"), Json.obj [(("message"), Json.str ("hello"))])]])]

/-- The data-passing scenario of claim C6 (and test_data_passing.py). -/
def dataPassingWorkflow : Json :=
  Json.obj
    [(("name"), Json.str ("Data Passing Test")),
     (("trigger"), Json.obj [(("type"), Json.str ("manual"))]),
     (("actions"),
      Json.arr
        [Json.obj
          [(("type"), Json.str ("summarize")),
           (("config"), Json.obj [(("input_text"), Json.str ("\x7b\x7braw\x7d\x7d"))])],
         Json.obj
          [(("type"), Json.str ("log_message")),
           (("config"),
            Json.obj [(("message"), Json.str ("Summary was: \x7b\x7bsummary\x7d\x7d"))])]])]

/-- A webhook-trigger workflow with explicit host, port and path. -/
def webhookWorkflow : Json :=
  Json.obj
    [(("trigger"),
      Json.obj
        [(("type"), Json.str ("webhook")), (("host"), Json.str ("0.0.0.0")),
         (("port"), Json.num 9001), (("path"), Json.str ("/hook"))]),
     (("actions"), Json.arr [])]

/-! ### The allowed-import set, as the spec words it (for claim C7) -/

/-- The allowed-import set as §4.3 step 2 and claim C7 describe it: a fixed
baseline ∪ the module names parsed from each required plugin's
`required_imports` ∪ trigger-specific modules (cron library for `schedule`,
filesystem-watch libraries for `file`, HTTP-server library for `webhook`) ∪
the `time` module exactly when some action declares `on_error.retry` or the
trigger type is `file` or `schedule`.  The plugin clause is the Boolean
`pluginImportsModule` below; `specAllowedModule` assembles the union. -/
def pluginImportsModule (plugins : List Plugin) (m : String) : Bool :=
  plugins.any (fun p => p.required_imports.any (fun imp => importModuleName imp == some m))

/-- `pluginImportsModule` holds exactly when some required plugin has
an import statement whose second token is `m`. -/
theorem pluginImportsModule_iff (plugins : List Plugin) (m : String) :
    pluginImportsModule plugins m = true ↔
      ∃ p ∈ plugins, ∃ imp ∈ p.required_imports, importModuleName imp = some m := by
  simp [pluginImportsModule]

def specAllowedModule (plugins : List Plugin) (w : Json) (m : String) : Prop :=
  m ∈ [("json"), ("sys"), ("datetime"), ("typing"), ("os"), ("logging"),
       ("wizflow.core.credentials"), ("wizflow.core.config"), ("wizflow.core.llm_interface")]
  ∨ pluginImportsModule plugins m = true
  ∨ (triggerTypeStr w = some ("schedule") ∧ m = "croniter")
  ∨ (triggerTypeStr w = some ("file") ∧ (m = "watchdog.observers" ∨ m = "watchdog.events"))
  ∨ (triggerTypeStr w = some ("webhook") ∧ m = "http.server")
  ∨ (m = "time" ∧
      (anyActionRetry w = true ∨ triggerTypeStr w = some ("file") ∨
        triggerTypeStr w = some ("schedule")))

theorem mem_pysetInsert (s : List String) (x m : String) :
    m ∈ pysetInsert s x ↔ m = x ∨ m ∈ s := by
  unfold pysetInsert
  by_cases hx : x ∈ s
  · simp only [if_pos hx]
    constructor
    · exact fun h => Or.inr h
    · rintro (rfl | h)
      · exact hx
      · exact h
  · simp only [if_neg hx, List.mem_append, List.mem_singleton]
    tauto

theorem mem_importsFoldl (imps : List String) (acc : List String) (m : String) :
    m ∈ imps.foldl
          (fun acc2 imp =>
            match importModuleName imp with
            | some mm => pysetInsert acc2 mm
            | none => acc2) acc
      ↔ m ∈ acc ∨ ∃ imp ∈ imps, importModuleName imp = some m := by
  induction imps generalizing acc with
  | nil => simp
  | cons i rest ih =>
      simp only [List.foldl_cons]
      rw [ih]
      rcases hi : importModuleName i with _ | mm
      · simp [hi]
      · simp only [hi, mem_pysetInsert, List.mem_cons, Option.some.injEq]
        constructor
        · rintro ((rfl | h) | ⟨imp, himp, hmod⟩)
          · exact Or.inr ⟨i, Or.inl rfl, hi⟩
          · exact Or.inl h
          · exact Or.inr ⟨imp, Or.inr himp, hmod⟩
        · rintro (h | ⟨imp, (rfl | himp'), hmod⟩)
          · exact Or.inl (Or.inr h)
          · rw [hi] at hmod
            exact Or.inl (Or.inl (Option.some.inj hmod).symm)
          · exact Or.inr ⟨imp, himp', hmod⟩

theorem mem_pluginsFoldl (plugins : List Plugin) (acc : List String) (m : String) :
    m ∈ plugins.foldl
          (fun acc p =>
            p.required_imports.foldl
              (fun acc2 imp =>
                match importModuleName imp with
                | some mm => pysetInsert acc2 mm
                | none => acc2) acc) acc
      ↔ m ∈ acc ∨ ∃ p ∈ plugins, ∃ imp ∈ p.required_imports, importModuleName imp = some m := by
  induction plugins generalizing acc with
  | nil => simp
  | cons p rest ih =>
      simp only [List.foldl_cons]
      rw [ih, mem_importsFoldl]
      constructor
      · rintro ((h | ⟨imp, himp, hmod⟩) | ⟨q, hq, himp⟩)
        · exact Or.inl h
        · exact Or.inr ⟨p, List.mem_cons_self .., imp, himp, hmod⟩
        · exact Or.inr ⟨q, List.mem_cons_of_mem _ hq, himp⟩
      · rintro (h | ⟨q, hq, imp, himp, hmod⟩)
        · exact Or.inl (Or.inl h)
        · rcases List.mem_cons.mp hq with rfl | hq'
          · exact Or.inl (Or.inr ⟨imp, himp, hmod⟩)
          · exact Or.inr ⟨q, hq', imp, himp, hmod⟩

set_option maxHeartbeats 2000000 in
theorem mem_getAllowedModules (plugins : List Plugin) (w : Json) (m : String) :
    m ∈ getAllowedModules plugins w ↔ specAllowedModule plugins w m := by
  have hfold : ∀ acc : List String,
      (m ∈ plugins.foldl
          (fun acc p =>
            p.required_imports.foldl
              (fun acc2 imp =>
                match importModuleName imp with
                | some mm => pysetInsert acc2 mm
                | none => acc2) acc) acc)
        ↔ (m ∈ acc ∨ pluginImportsModule plugins m = true) := by
    intro acc
    rw [mem_pluginsFoldl, pluginImportsModule_iff]
  unfold getAllowedModules specAllowedModule
  generalize htr : triggerTypeStr w = trig
  generalize har : anyActionRetry w = retry
  cases retry <;> rcases trig with _ | t
  · simp [hfold, mem_pysetInsert]
    tauto
  · by_cases hf : t = "file"
    · simp [hfold, mem_pysetInsert, hf]
      tauto
    · by_cases hsch : t = "schedule"
      · simp [hfold, mem_pysetInsert, hsch, hf]
        tauto
      · by_cases hwh : t = "webhook"
        · simp [hfold, mem_pysetInsert, hwh, hf, hsch]
          tauto
        · simp [hfold, mem_pysetInsert, hf, hsch, hwh]
          tauto
  · simp [hfold, mem_pysetInsert]
    tauto
  · by_cases hf : t = "file"
    · simp [hfold, mem_pysetInsert, hf]
      tauto
    · by_cases hsch : t = "schedule"
      · simp [hfold, mem_pysetInsert, hsch, hf]
        tauto
      · by_cases hwh : t = "webhook"
        · simp [hfold, mem_pysetInsert, hwh, hf, hsch]
          tauto
        · simp [hfold, mem_pysetInsert, hf, hsch, hwh]
          tauto

/-! ### Agreement of the structured resolver with the emitted text -/

theorem strMk_append (l1 l2 : List Char) :
    String.mk (l1 ++ l2) = String.mk l1 ++ String.mk l2 := rfl

theorem strJoin_cons (a : String) (l : List String) :
    String.join (a :: l) = a ++ String.join l := by
  rw [String.join_eq, String.join_eq]
  simp only [List.map_cons, List.flatten_cons]
  rfl

/-- The f-string content assembled from `splitParts` coincides with the
output of the faithful `re.sub` scanner. -/
theorem join_render_splitParts (varsName : String) (l : List Char) :
    String.join ((splitParts l).map (renderFPart varsName)) =
      String.mk (subAll (fstringReplacer varsName) l) := by
  induction l using splitParts.induct with
  | case1 =>
      rw [splitParts, subAll]
      rfl
  | case2 c rest h g suf hfc ih =>
      rw [splitParts, subAll]
      rw [if_pos h, if_pos h, hfc]
      simp only [List.map_cons]
      rw [strJoin_cons, ih, strMk_append]
      rfl
  | case3 c rest h hfc ih =>
      rw [splitParts, subAll]
      rw [if_pos h, if_pos h, hfc]
      simp only [List.map_cons]
      rw [strJoin_cons, ih]
      rfl
  | case4 c rest h ih =>
      rw [splitParts, subAll]
      rw [if_neg h, if_neg h]
      simp only [List.map_cons]
      rw [strJoin_cons, ih]
      rfl

/-- The structured resolver renders exactly to `_resolve_template`'s text. -/
theorem renderExpr_resolveTemplateE (varsName : String) (v : Json) :
    renderExpr varsName (resolveTemplateE v) = resolveTemplate varsName v := by
  cases v with
  | str s =>
      rw [resolveTemplateE, resolveTemplate]
      rcases hfm : fullmatchGroup (pyStrip s) with _ | g
      · by_cases hm : hasMatch s.data
        · simp [hm, renderExpr, join_render_splitParts]
        · simp [hm, renderExpr, pyRepr]
      · simp [renderExpr]
  | null => rfl
  | bool b => cases b <;> rfl
  | num n => rfl
  | arr xs => rfl
  | obj kvs => rfl

/-! ### General facts about the emitted retry skeleton -/

/-- When the underlying call raises on every attempt, the retry loop from any
starting attempt performs exactly its remaining `n` iterations, sleeps after
each failure except the last (`n - 1` sleeps of `d`), leaves the mapping
unchanged, and raises the tagged fatal error. -/
theorem retryGo_allFail (tag : String) (d : Int) (call : Nat → Option Json)
    (vars : List (String × Json)) (hfail : ∀ k, call k = none) :
    ∀ (n a : Nat),
      retryGo tag d call a n vars =
        { attempts := n, sleeps := List.replicate (n - 1) d, vars := vars,
          fatal := some ("Action '" ++ tag ++ "' failed permanently.") } := by
  intro n
  induction n with
  | zero => intro a; rfl
  | succ m ih =>
      intro a
      rw [retryGo, hfail a, ih (a + 1)]
      cases m with
      | zero => rfl
      | succ k =>
          simp only [RetryRun.mk.injEq, Nat.succ_sub_one, List.replicate_succ,
            if_pos (Nat.succ_pos k), List.singleton_append, and_true, true_and]
          omega

/-- A successful call on the current attempt merges a returned dict into the
mapping, breaks immediately (one attempt, no sleep), and raises nothing. -/
theorem retryGo_success (tag : String) (d : Int) (call : Nat → Option Json)
    (vars : List (String × Json)) (a m : Nat) (kvs : List (String × Json))
    (hok : call a = some (Json.obj kvs)) :
    retryGo tag d call a (m + 1) vars =
      { attempts := 1, sleeps := [], vars := dictUpdate vars kvs, fatal := none } := by
  rw [retryGo, hok]

/-! ### The claims -/

set_option maxRecDepth 20000 in
/-- C1: for an always-failing action under `on_error.retry{count: 5,
delay_seconds: 10}`, the claim describes the run-time behaviour of the
generated code: exactly 5 attempts, exactly 4 inter-attempt waits of 10,
then a fatal tagged `RuntimeError`, and on success a merge with no further
attempts.  The emitted retry skeleton states exactly that (see the text
equality: `for attempt in range(5)`, `time.sleep(10)` guarded by
`attempt < 4`, the final `raise RuntimeError`), and its operational reading
`runRetryBlock` realises those counts.  However the emitted block is glued
with the literal two-character sequences backslash-`n` (visible as `\\n` in
the text equality below) instead of newlines, so the assembled program is
not syntactically valid Python and makes zero attempts at run time — the
code bug recorded for this claim. -/
theorem c1_retry_eval :
    generateActionCalls theRegistry retryWorkflow =
      "\\n        # --- Action 1: log_message ---\\n        logger.info(f\\\"▶️  Executing action 1: log_message\\\")\\n        action_success = False\\n        for attempt in range(5):\\n            try:\\n                logger.debug(f\\\"Attempt \x7b\x7battempt + 1\x7d\x7d/5 for action 'log_message'...\\\")\\n                new_variables = log_message(message='Trying something...', level='INFO')\\n                if isinstance(new_variables, dict):\\n                    variables.update(new_variables)\\n                logger.info(f\\\"✅ Action 'log_message' completed successfully on attempt \x7b\x7battempt + 1\x7d\x7d.\\\")\\n                action_success = True\\n                break\\n            except Exception as e:\\n                logger.warning(f\\\"⚠️  Attempt \x7b\x7battempt + 1\x7d\x7d/5 for action 'log_message' failed with error: \x7b\x7btype(e).__name__\x7d\x7d\\\")\\n                if attempt < 4:\\n                    logger.info(f\\\"Retrying in 10 seconds...\\\")\\n                    time.sleep(10)\\n        if not action_success:\\n            logger.error(f\\\"❌ Action 'log_message' failed after 5 attempts.\\\")\\n            raise RuntimeError(f\\\"Action 'log_message' failed permanently.\\\")" ∧
    (runRetryBlock ("log_message") 5 10 (fun _ => none) []).attempts = 5 ∧
    (runRetryBlock ("log_message") 5 10 (fun _ => none) []).sleeps = List.replicate 4 10 ∧
    (runRetryBlock ("log_message") 5 10 (fun _ => none) []).fatal =
      some ("Action 'log_message' failed permanently.") ∧
    (runRetryBlock ("log_message") 5 10
      (fun k => if k = 1 then some (Json.obj [(("summary"), Json.str ("ok"))]) else none)
      []).attempts = 2 ∧
    (runRetryBlock ("log_message") 5 10
      (fun k => if k = 1 then some (Json.obj [(("summary"), Json.str ("ok"))]) else none)
      []).sleeps = [10] ∧
    (runRetryBlock ("log_message") 5 10
      (fun k => if k = 1 then some (Json.obj [(("summary"), Json.str ("ok"))]) else none)
      []).fatal = none ∧
    (runRetryBlock ("log_message") 5 10
      (fun k => if k = 1 then some (Json.obj [(("summary"), Json.str ("ok"))]) else none)
      []).vars = [(("summary"), Json.str ("ok"))] :=
  ⟨rfl, rfl, rfl, rfl, rfl, rfl, rfl, rfl⟩

set_option maxRecDepth 20000 in
/-- C2: the claim says a `condition` field becomes a boolean guard and a
`loop` field a `for` iteration with direct loop-variable binding.
`_generate_action_calls` reads only `type`, `config` and `on_error`: the
generated text for an action carrying both `condition` and `loop` is
character-for-character the text generated without them, and no guard or
loop construct referencing them is emitted — the feature is absent
(the repository's own tests assert it and note it is unimplemented). -/
theorem c2_condition_loop_ignored :
    generateActionCalls theRegistry condLoopWorkflow =
      generateActionCalls theRegistry plainWorkflow ∧
    strContainsSub (generateActionCalls theRegistry condLoopWorkflow) ("for ") = false ∧
    strContainsSub (generateActionCalls theRegistry condLoopWorkflow) ("flag") = false ∧
    strContainsSub (generateActionCalls theRegistry condLoopWorkflow) ("items") = false :=
  ⟨rfl, by decide, by decide, by decide⟩

/-- C3: `_resolve_template` maps a string that is exactly one placeholder
(after trimming) to the no-default lookup `variables.get('x')`, whose
evaluation returns the stored value unchanged (any runtime type) and `None`
absence when unset; a string with embedded placeholders to an f-string in
which every placeholder is an empty-default lookup, so an unset variable
renders as empty text; placeholder-free strings and non-string values pass
through as their `repr`. -/
theorem c3_template_resolver :
    (∀ s g, fullmatchGroup (pyStrip s) = some g →
      resolveTemplate ("variables") (Json.str s) = "variables.get('" ++ pyStrip g ++ "')" ∧
      resolveTemplateE (Json.str s) = ResolvedExpr.lookupNoDefault (pyStrip g) ∧
      (∀ vars v, lookupStr vars (pyStrip g) = some v →
        evalResolved vars (resolveTemplateE (Json.str s)) = v) ∧
      (∀ vars, lookupStr vars (pyStrip g) = none →
        evalResolved vars (resolveTemplateE (Json.str s)) = Json.null)) ∧
    (∀ s, fullmatchGroup (pyStrip s) = none → hasMatch s.data = true →
      resolveTemplate ("variables") (Json.str s) =
        "f\"" ++ String.join ((splitParts s.data).map (renderFPart ("variables"))) ++ "\"" ∧
      resolveTemplateE (Json.str s) = ResolvedExpr.fstr (splitParts s.data) ∧
      (∀ vars n, lookupStr vars n = none →
        evalFPart vars (FPart.lookupEmptyDefault n) = "")) ∧
    (∀ s, fullmatchGroup (pyStrip s) = none → hasMatch s.data = false →
      resolveTemplate ("variables") (Json.str s) = pyReprStr s) ∧
    (∀ n : Int, resolveTemplate ("variables") (Json.num n) = pyRepr (Json.num n)) ∧
    (∀ b, resolveTemplate ("variables") (Json.bool b) = pyRepr (Json.bool b)) ∧
    resolveTemplate ("variables") Json.null = pyRepr Json.null ∧
    (∀ xs, resolveTemplate ("variables") (Json.arr xs) = pyRepr (Json.arr xs)) ∧
    (∀ kvs, resolveTemplate ("variables") (Json.obj kvs) = pyRepr (Json.obj kvs)) := by
  refine ⟨?_, ?_, ?_, fun _ => rfl, fun _ => rfl, rfl, fun _ => rfl, fun _ => rfl⟩
  · intro s g h
    refine ⟨?_, ?_, ?_, ?_⟩
    · simp only [resolveTemplate, h]
      rfl
    · simp only [resolveTemplateE, h]
    · intro vars v hv
      simp only [resolveTemplateE, h, evalResolved, hv, Option.getD_some]
    · intro vars hv
      simp only [resolveTemplateE, h, evalResolved, hv, Option.getD_none]
  · intro s h hm
    refine ⟨?_, ?_, ?_⟩
    · simp only [resolveTemplate, h, hm, if_true, join_render_splitParts]
    · simp only [resolveTemplateE, h, hm, if_true]
    · intro vars n hv
      simp only [evalFPart, hv, Option.getD_none, pyStr]
  · intro s h hm
    simp only [resolveTemplate, h, hm, Bool.false_eq_true, if_false]

/-- Witness for C3 at concrete inputs: `{{x}}` resolves to the no-default
lookup, whose value keeps the stored list unchanged and is `None` when
unset; an embedded placeholder resolves through the f-string path and an
unset variable contributes empty text; a plain string passes through. -/
theorem c3_witness :
    resolveTemplate ("variables") (Json.str ("\x7b\x7bx\x7d\x7d")) = "variables.get('x')" ∧
    evalResolved [(("x"), Json.arr [Json.num 1])]
      (resolveTemplateE (Json.str ("\x7b\x7bx\x7d\x7d"))) = Json.arr [Json.num 1] ∧
    evalResolved [] (resolveTemplateE (Json.str ("\x7b\x7bx\x7d\x7d"))) = Json.null ∧
    resolveTemplate ("variables") (Json.str ("Summary was: \x7b\x7bsummary\x7d\x7d")) =
      "f\"" ++ String.join
        ((splitParts (String.data ("Summary was: \x7b\x7bsummary\x7d\x7d"))).map
          (renderFPart ("variables"))) ++ "\"" ∧
    evalFPart [] (FPart.lookupEmptyDefault ("summary")) = "" ∧
    resolveTemplate ("variables") (Json.str ("no templates")) = pyReprStr ("no templates") := by
  refine ⟨?_, ?_, ?_, ?_, ?_, ?_⟩
  · exact (c3_template_resolver.1 ("\x7b\x7bx\x7d\x7d") ("x") (by decide)).1
  · exact (c3_template_resolver.1 ("\x7b\x7bx\x7d\x7d") ("x") (by decide)).2.2.1
      [(("x"), Json.arr [Json.num 1])] (Json.arr [Json.num 1]) rfl
  · exact (c3_template_resolver.1 ("\x7b\x7bx\x7d\x7d") ("x") (by decide)).2.2.2 [] rfl
  · exact (c3_template_resolver.2.1 ("Summary was: \x7b\x7bsummary\x7d\x7d")
      (by decide) (by decide)).1
  · exact (c3_template_resolver.2.1 ("Summary was: \x7b\x7bsummary\x7d\x7d")
      (by decide) (by decide)).2.2 [] ("summary") rfl
  · exact c3_template_resolver.2.2.1 ("no templates") (by decide) (by decide)

set_option maxRecDepth 20000 in
/-- C4 counterexample: the dotted-path placeholder `{{a.b}}` does NOT become
the chained default-safe lookup `.get('a', {}).get('b')` the claim
describes; the resolver emits a single lookup keyed by the whole dotted
text. -/
theorem c4_counterexample :
    resolveTemplate ("variables") (Json.str ("\x7b\x7ba.b\x7d\x7d")) = "variables.get('a.b')" ∧
    "variables.get('a.b')" ≠ "variables.get('a', \x7b\x7d).get('b')" ∧
    strContainsSub (resolveTemplate ("variables") (Json.str ("\x7b\x7ba.b\x7d\x7d")))
      (".get('a', \x7b\x7d)") = false := by
  refine ⟨?_, ?_, ?_⟩ <;> decide

/-- C4 amended: a full-string dotted placeholder resolves to one no-default
lookup whose key is the entire dotted text (`variables.get('a.b')`); no
chained lookups are emitted, and a missing key still never raises — the
single `.get` yields `None` absence. -/
theorem c4_amended (s g : String) (h : fullmatchGroup (pyStrip s) = some g) :
    resolveTemplate ("variables") (Json.str s) = "variables.get('" ++ pyStrip g ++ "')" ∧
    (∀ vars, lookupStr vars (pyStrip g) = none →
      evalResolved vars (resolveTemplateE (Json.str s)) = Json.null) := by
  refine ⟨?_, ?_⟩
  · simp only [resolveTemplate, h]
    rfl
  · intro vars hv
    simp only [resolveTemplateE, h, evalResolved, hv, Option.getD_none]

/-- Witness for the amended C4 at `{{a.b}}`: the single dotted-key lookup,
and `None`-absence on an empty mapping (no exception path exists). -/
theorem c4_amended_witness :
    resolveTemplate ("variables") (Json.str ("\x7b\x7ba.b\x7d\x7d")) = "variables.get('a.b')" ∧
    evalResolved [] (resolveTemplateE (Json.str ("\x7b\x7ba.b\x7d\x7d"))) = Json.null :=
  ⟨(c4_amended ("\x7b\x7ba.b\x7d\x7d") ("a.b") (by decide)).1,
   (c4_amended ("\x7b\x7ba.b\x7d\x7d") ("a.b") (by decide)).2 [] rfl⟩

set_option maxRecDepth 20000 in
/-- C5: an action whose `type` matches no plugin yields exactly one
generation-time warning; its step compiles to the single skip-log line, and
the following action's call text is still generated, in order.  (The claim's
final part — that the skip and the subsequent actions also execute at run
time — fails, because the block below is glued with literal backslash-`n`
pairs and the assembled program is not valid Python; that is the code bug
recorded for this claim.) -/
theorem c5_unmatched_plugin_eval :
    (getRequiredPlugins theRegistry bogusWorkflow).2 =
      [("⚠️  Warning: No plugin found for action type 'bogus_action'. It will be skipped.")] ∧
    (getRequiredPlugins theRegistry bogusWorkflow).1.map Plugin.name = [("log_message")] ∧
    generateActionCalls theRegistry bogusWorkflow =
      "\\n        # --- Action 1: bogus_action ---\\n        logger.info(f\\\"▶️  Executing action 1: bogus_action\\\")\\n        logger.warning(\\\"🤷‍♂️ Action 'bogus_action' skipped (no plugin found).\\\")\\n\\n        # --- Action 2: log_message ---\\n        logger.info(f\\\"▶️  Executing action 2: log_message\\\")\\n        new_variables = log_message(message='hello', level='INFO')\\n        if isinstance(new_variables, dict):\\n            variables.update(new_variables)" :=
  ⟨rfl, rfl, rfl⟩

set_option maxRecDepth 20000 in
/-- C6: for the summarize-then-log document, the claim says the generated
`log_message` call embeds an interpolated lookup of `summary` with an
empty-string default.  In the code, `LogMessagePlugin.get_function_call`
passes the config value through `repr` only: the placeholder text appears as
a literal and no lookup is emitted (the repository's own
`test_data_passing.py` asserts the interpolated form).  The `summarize` step
is additionally skipped because its plugin is absent from the registry. -/
theorem c6_log_message_literal :
    logMessageCall (Json.obj [(("message"), Json.str ("Summary was: \x7b\x7bsummary\x7d\x7d"))]) =
      "log_message(message='Summary was: \x7b\x7bsummary\x7d\x7d', level='INFO')" ∧
    strContainsSub ("log_message(message='Summary was: \x7b\x7bsummary\x7d\x7d', level='INFO')")
      ("variables.get('summary', '')") = false ∧
    generateActionCalls theRegistry dataPassingWorkflow =
      "\\n        # --- Action 1: summarize ---\\n        logger.info(f\\\"▶️  Executing action 1: summarize\\\")\\n        logger.warning(\\\"🤷‍♂️ Action 'summarize' skipped (no plugin found).\\\")\\n\\n        # --- Action 2: log_message ---\\n        logger.info(f\\\"▶️  Executing action 2: log_message\\\")\\n        new_variables = log_message(message='Summary was: \x7b\x7bsummary\x7d\x7d', level='INFO')\\n        if isinstance(new_variables, dict):\\n            variables.update(new_variables)" ∧
    strContainsSub (generateActionCalls theRegistry dataPassingWorkflow)
      ("variables.get") = false :=
  ⟨rfl, by decide, rfl, by decide⟩

/-- C7: for every workflow document, membership in the allowed-import set
computed by `_get_allowed_modules` over the plugins required by the document
coincides with the claim's union formula: fixed baseline ∪ parsed plugin
modules ∪ trigger-specific modules ∪ `time` exactly when some action
declares a (truthy) `on_error.retry` or the trigger type is `file` or
`schedule`. -/
theorem c7_allowed_modules (w : Json) (m : String) :
    m ∈ getAllowedModules ((getRequiredPlugins theRegistry w).1) w ↔
      specAllowedModule ((getRequiredPlugins theRegistry w).1) w m :=
  mem_getAllowedModules ((getRequiredPlugins theRegistry w).1) w m

set_option maxRecDepth 20000 in
/-- C8: the webhook harness bakes the configured host, port and path into
the emitted text, and its `do_POST` — read operationally — first sends the
fixed `200`/`OK` response and then invokes the workflow function with the
parsed-JSON payload (or the raw-bytes wrapper on parse failure) whenever the
request path equals the configured path, while every other path receives a
`404` and never triggers an invocation. -/
theorem c8_webhook_harness (cfgPath reqPath body : String) (parsed : Option Json) :
    (reqPath = cfgPath →
      webhookHandlePost cfgPath reqPath body parsed =
        [WebhookEvent.sendResponse 200 ("OK"),
         WebhookEvent.invoke (Json.obj [(("data"),
           (match parsed with
            | some d => d
            | none => Json.obj [(("raw"), Json.str body)]))])]) ∧
    (reqPath ≠ cfgPath →
      webhookHandlePost cfgPath reqPath body parsed =
        [WebhookEvent.sendError 404 ("Not Found")] ∧
      ∀ p, WebhookEvent.invoke p ∉ webhookHandlePost cfgPath reqPath body parsed) ∧
    strContainsSub (generateMainExecution webhookWorkflow) ("    host = \"0.0.0.0\"\n") = true ∧
    strContainsSub (generateMainExecution webhookWorkflow) ("    port = 9001\n") = true ∧
    strContainsSub (generateMainExecution webhookWorkflow)
      ("        if s.path == \"/hook\":\n") = true ∧
    strContainsSub (generateMainExecution webhookWorkflow)
      ("    with HTTPServer((host, port), WebhookHandler) as httpd:\n") = true := by
  refine ⟨?_, ?_, by decide, by decide, by decide, by decide⟩
  · intro h
    simp only [webhookHandlePost, if_pos h]
  · intro h
    constructor
    · simp only [webhookHandlePost, if_neg h]
    · intro p
      simp [webhookHandlePost, if_neg h]

/-- Witness for C8: a matching request is acknowledged with `200 OK` and
invokes the workflow with the raw-bytes wrapper (unparseable body); a
non-matching request gets only the `404`. -/
theorem c8_witness :
    webhookHandlePost ("/hook") ("/hook") ("x") none =
      [WebhookEvent.sendResponse 200 ("OK"),
       WebhookEvent.invoke (Json.obj [(("data"), Json.obj [(("raw"), Json.str ("x"))])])] ∧
    webhookHandlePost ("/hook") ("/nope") ("x") none =
      [WebhookEvent.sendError 404 ("Not Found")] :=
  ⟨(c8_webhook_harness ("/hook") ("/hook") ("x") none).1 rfl,
   ((c8_webhook_harness ("/hook") ("/nope") ("x") none).2.1 (by decide)).1⟩

/-- C9: generation is a pure function of the document and the fixed
registry: the output depends only on the document's `name`, `description`,
`metadata`, `trigger` and `actions` fields, so two generation calls over
equal inputs (in particular, over the same document) produce
character-for-character identical text. -/
theorem c9_generation_pure (w w' : Json)
    (h1 : jget w ("name") = jget w' ("name"))
    (h2 : jget w ("description") = jget w' ("description"))
    (h3 : jget w ("metadata") = jget w' ("metadata"))
    (h4 : jget w ("trigger") = jget w' ("trigger"))
    (h5 : jget w ("actions") = jget w' ("actions")) :
    generateCode theRegistry w = generateCode theRegistry w' := by
  have htrig : jgetD w ("trigger") (Json.obj []) = jgetD w' ("trigger") (Json.obj []) := by
    simp only [jgetD, h4]
  have hacts : jgetD w ("actions") (Json.arr []) = jgetD w' ("actions") (Json.arr []) := by
    simp only [jgetD, h5]
  have htt : triggerTypeStr w = triggerTypeStr w' := by
    simp only [triggerTypeStr, htrig]
  have har : anyActionRetry w = anyActionRetry w' := by
    simp only [anyActionRetry, hacts]
  have hreq : getRequiredPlugins theRegistry w = getRequiredPlugins theRegistry w' := by
    simp only [getRequiredPlugins, hacts]
  have hcalls : generateActionCalls theRegistry w = generateActionCalls theRegistry w' := by
    simp only [generateActionCalls, hacts]
  have hmeta : generateMetadataSection w = generateMetadataSection w' := by
    simp only [generateMetadataSection, jgetD, h3]
  have hmainf : generateMainFunction theRegistry w = generateMainFunction theRegistry w' := by
    simp only [generateMainFunction, jgetD, h1, h2, hcalls]
  have hexec : generateMainExecution w = generateMainExecution w' := by
    simp only [generateMainExecution, jgetD, h4]
  have himp : ∀ ps, generateImports ps w = generateImports ps w' := by
    intro ps
    simp only [generateImports, htt, har]
  have hallow : ∀ ps, getAllowedModules ps w = getAllowedModules ps w' := by
    intro ps
    simp only [getAllowedModules, htt, har]
  simp only [generateCode, hreq, hmeta, hmainf, hexec]
  rw [hallow, himp]

/-- Witness for C9: two documents differing only in a field the generator
never reads (`requirements`) generate identical text. -/
theorem c9_witness :
    generateCode theRegistry (Json.obj [(("requirements"), Json.arr [Json.str ("requests")])]) =
      generateCode theRegistry (Json.obj []) :=
  c9_generation_pure _ _ rfl rfl rfl rfl rfl

/-- C10: registry construction is a total fold that skips a module whose
load fails and keeps loading the rest.  `plugins/base.py` exports no
`LoopVariable`, so `wizflow.plugins.summarize` fails to import and the
`summarize` plugin is absent, while every other action plugin — including
`web_scrape`, which is iterated after the failing module — and all three
trigger plugins are registered. -/
theorem c10_registry_eval :
    (baseExports.contains ("LoopVariable")) = false ∧
    getActionPlugin theRegistry ("summarize") = none ∧
    getActionPlugin theRegistry ("log_message") = some logMessagePlugin ∧
    getActionPlugin theRegistry ("api_call") = some apiCallPlugin ∧
    getActionPlugin theRegistry ("file_process") = some fileProcessPlugin ∧
    getActionPlugin theRegistry ("send_email") = some sendEmailPlugin ∧
    getActionPlugin theRegistry ("send_whatsapp") = some sendWhatsappPlugin ∧
    getActionPlugin theRegistry ("web_scrape") = some webScrapePlugin ∧
    theRegistry.action_plugins.map Prod.fst =
      [("api_call"), ("file_process"), ("log_message"), ("send_email"),
       ("send_whatsapp"), ("web_scrape")] ∧
    theRegistry.trigger_plugins = [("file"), ("schedule"), ("webhook")] :=
  ⟨rfl, rfl, rfl, rfl, rfl, rfl, rfl, rfl, rfl, rfl⟩

end Wizflow
